import Mathlib

/-!
Verification of `src/dist/webserial_transport.py` (darkxst/silabs-firmware-builder).

The module adapts a Web Serial device to an asyncio transport.  We embed the
transport's state (`WebSerialTransport.__init__`), its shutdown transition
(`_cleanup`), its pumps (`_reader_loop`, `_writer_loop`), `write`, `close`, and
the connection factory (`create_serial_connection`) with its process-wide
closing-tasks registry (`_SERIAL_PORT_CLOSING_TASKS`).

The event loop is single-threaded and cooperative, so each Python code block
between `await` points is embedded as a pure Lean function from state to
state; observable side effects (device writes, `data_received`,
`connection_lost`, lock releases, log warnings, device opens) are collected
into an ordered event trace.  asyncio runtime facts used by the model:
`task.cancel()` on a cancelled task is a no-op; a cancelled task is never
resumed, so it performs no further effects; callbacks registered with
`add_done_callback` run, in registration order, strictly after the task's
awaitable completes; an exception raised inside a done callback (e.g. a
`ValueError` from `list.remove`) is swallowed by the event loop.
-/

namespace WebSerial

/-- A byte chunk travelling through the transport. -/
abbrev Chunk := List Nat

/-- Errors carried by a shutdown, mirroring the exceptions in the source:
`RuntimeError("Other side has closed")` (line 81),
`RuntimeError("Transport was not closed!")` (line 100), and an arbitrary
device I/O failure raised by `self._js_writer.write` (line 73). -/
inductive Err where
  | peerClosed
  | notClosed
  | deviceError (code : Nat)
  deriving DecidableEq, Repr

/-- The detached `close_port` task created at line 119, recording which done
callbacks `_cleanup` attached to it: `notifyExc = some exc` iff the
`connection_lost(exc)` callback of lines 127-129 was attached, and
`removeAttached` iff the registry-removal callback of lines 130-132 was. -/
structure ClosingTask where
  notifyExc : Option (Option Err)
  removeAttached : Bool
  deriving DecidableEq, Repr

/-- Observable events, in the order the embedded code emits them. -/
inductive Event where
  | cancelReaderTask
  | cancelWriterTask
  | releaseReaderLock
  | releaseWriterLock
  | createCloseTask
  | connectionLost (exc : Option Err)
  | closeCompleted (id : Nat)
  | warn
  | openDevice (baudRate : Nat) (flowControl : Option String)
  | beginWrite (c : Chunk)
  | endWrite (c : Chunk)
  | dataReceived (c : Chunk)
  deriving DecidableEq, Repr

/-- The mutable fields of `WebSerialTransport` (lines 52-63).  Object-valued
fields are abstracted to their `is not None` status, which is all the code
ever branches on; `readerCancelled`/`writerCancelled` record whether
`.cancel()` was called on the corresponding pump task. -/
@[ext]
structure TransportState where
  protocol : Bool
  port : Bool
  js_reader : Bool
  js_writer : Bool
  is_closing : Bool
  readerCancelled : Bool
  writerCancelled : Bool
  writeQueue : List Chunk
  deriving DecidableEq, Repr

/-- The state right after `__init__` (lines 45-65): protocol, port and both
stream locks held, queue empty, nothing closing or cancelled. -/
def initTransport : TransportState :=
  { protocol := true, port := true, js_reader := true, js_writer := true,
    is_closing := false, readerCancelled := false, writerCancelled := false,
    writeQueue := [] }

/-- A transport that is connected: consumer protocol set, device present,
reader and writer locks held (the state `__init__` establishes). -/
def connected (t : TransportState) : Prop :=
  t.protocol = true ∧ t.port = true ∧ t.js_reader = true ∧ t.js_writer = true

/-- `WebSerialTransport._cleanup` (lines 102-134).  Returns the state after
the transition, the synchronous observable events in order, and the detached
`close_port` task when a port was present (line 119).  Field effects:
line 103 sets `_is_closing`; lines 105-106 cancel both pumps; lines 108-114
release each stream lock exactly when it is still held and null the field;
lines 118-121 detach the device close and null `_port`; lines 123-134 notify
the consumer — synchronously when no close task was created (line 125),
otherwise as done callbacks of the close task (lines 127-132) — and null
`_protocol`. -/
def cleanup (t : TransportState) (exc : Option Err) :
    TransportState × List Event × Option ClosingTask :=
  let evs : List Event :=
    [Event.cancelReaderTask, Event.cancelWriterTask] ++
      (if t.js_reader then [Event.releaseReaderLock] else []) ++
      (if t.js_writer then [Event.releaseWriterLock] else []) ++
      (if t.port then [Event.createCloseTask] else []) ++
      (if t.protocol && !t.port then [Event.connectionLost exc] else [])
  let ct : Option ClosingTask :=
    if t.port then
      some (if t.protocol then { notifyExc := some exc, removeAttached := true }
            else { notifyExc := none, removeAttached := false })
    else none
  ({ t with protocol := false, port := false, js_reader := false,
            js_writer := false, is_closing := true,
            readerCancelled := true, writerCancelled := true },
   evs, ct)

/-- `WebSerialTransport.close` (lines 136-137): `self._cleanup(None)`. -/
def close (t : TransportState) : TransportState × List Event × Option ClosingTask :=
  cleanup t none

/-- `WebSerialTransport.write` (lines 86-87): `put_nowait` on the unbounded
queue — a total, synchronous enqueue that succeeds in every state. -/
def write (t : TransportState) (data : Chunk) : TransportState :=
  { t with writeQueue := t.writeQueue ++ [data] }

/-- The state every `_cleanup` call leaves behind: everything nulled, closing
flag set, pumps cancelled, queue untouched. -/
def deadState (qs : List Chunk) : TransportState :=
  { protocol := false, port := false, js_reader := false, js_writer := false,
    is_closing := true, readerCancelled := true, writerCancelled := true,
    writeQueue := qs }

/-- Events observable when a detached `close_port` task finishes: the device
close awaitable completes (lines 36-41), then its done callbacks run in
registration order, so `connection_lost` (lines 127-129) fires strictly after
the close completed.  Registry removal (lines 130-132) is modelled on the
registry itself by `RegSys.completeClose`. -/
def completeCloseTask (id : Nat) (ct : ClosingTask) : List Event :=
  Event.closeCompleted id ::
    (match ct.notifyExc with
     | some exc => [Event.connectionLost exc]
     | none => [])

/-- Runs `_cleanup` once per entry of `excs`, accumulating the synchronous
events and the close tasks created.  `close()` corresponds to a `none` entry,
a write failure to `some (deviceError _)`, end-of-stream to
`some peerClosed`, and `__del__` to `some notClosed`, so an arbitrary `excs`
covers every interleaving of `close()` calls with internal shutdown
triggers. -/
def runCleanups (t : TransportState) :
    List (Option Err) → TransportState × List Event × List ClosingTask
  | [] => (t, [], [])
  | exc :: rest =>
    let r := cleanup t exc
    let r2 := runCleanups r.1 rest
    (r2.1, r.2.1 ++ r2.2.1, r.2.2.toList ++ r2.2.2)

/-- Does the event notify the consumer that the connection was lost? -/
def isConnectionLost : Event → Bool
  | .connectionLost _ => true
  | _ => false

/-- Total number of `connection_lost` notifications a run produces: those
fired synchronously plus those attached to a close task (each attached
callback fires exactly once, when its task completes). -/
def lostNotifications (evs : List Event) (cts : List ClosingTask) : Nat :=
  evs.countP isConnectionLost + cts.countP (fun ct => ct.notifyExc.isSome)

/-- `WebSerialTransport._writer_loop` (lines 67-75), the outbound pump.  It
dequeues chunks one at a time and awaits each device write before the next
iteration; `queue` is the sequence of chunks the pump will dequeue and
`fails i` is the device's outcome for the i-th write attempt (counting from
`i0`): `none` for success, `some e` when `self._js_writer.write` raises `e`.
On a failure the pump calls `self._cleanup(e)` and breaks (lines 73-75).
The run ends when the queue is exhausted (the real loop would then block in
`await self._write_queue.get()`). -/
def writerLoop (t : TransportState) (fails : Nat → Option Err) :
    List Chunk → Nat → List Event × TransportState × Option ClosingTask
  | [], _ => ([], t, none)
  | c :: rest, i0 =>
    match fails i0 with
    | none =>
      let r := writerLoop t fails rest (i0 + 1)
      (Event.beginWrite c :: Event.endWrite c :: r.1, r.2)
    | some e =>
      let r := cleanup t (some e)
      (Event.beginWrite c :: r.2.1, r.1, r.2.2)

/-- One device read result, `{done: bool, value: bytes}` (line 79-80). -/
inductive ReadResult where
  | chunk (value : Chunk)
  | done
  deriving DecidableEq, Repr

/-- `WebSerialTransport._reader_loop` (lines 77-84), the inbound pump.
`reads` is the successive results of `self._js_reader.read()`.  Each
non-done result is forwarded to `self._protocol.data_received` (line 84);
a done result triggers `self._cleanup(RuntimeError("Other side has closed"))`
and returns (lines 80-82).  The last component counts how many device reads
were attempted. -/
def readerLoop (t : TransportState) :
    List ReadResult → List Event × TransportState × Option ClosingTask × Nat
  | [] => ([], t, none, 0)
  | .chunk v :: rest =>
    let r := readerLoop t rest
    (Event.dataReceived v :: r.1, r.2.1, r.2.2.1, r.2.2.2 + 1)
  | .done :: _ =>
    let r := cleanup t (some Err.peerClosed)
    (r.2.1, r.1, r.2.2, 1)

/-- `write` applied to a whole chunk sequence, back to back, with no awaits
in between — the enqueues are synchronous so they simply accumulate. -/
def writeAll (t : TransportState) : List Chunk → TransportState
  | [] => t
  | c :: rest => writeAll (write t c) rest

/-- The device-side trace of a fully successful pump run over a chunk
sequence: each write begins only after the previous one ended. -/
def writeTrace : List Chunk → List Event
  | [] => []
  | c :: rest => Event.beginWrite c :: Event.endWrite c :: writeTrace rest

/-- The device writes the outbound pump performs from state `t`: a cancelled
task is never resumed by the event loop, so after `_cleanup` cancelled the
pump (line 106) it performs no further device writes. -/
def pumpWrites (t : TransportState) (fails : Nat → Option Err) : List Event :=
  if t.writerCancelled then [] else (writerLoop t fails t.writeQueue 0).1

/-- An entry of `_SERIAL_PORT_CLOSING_TASKS` (line 31): a close task tagged
with an identity (Python compares tasks by identity in `list.remove`). -/
structure RegEntry where
  id : Nat
  task : ClosingTask
  deriving DecidableEq, Repr

/-- The factory's wait loop (lines 156-161) with the registry contents
reversed: each iteration logs a warning, pops the LAST entry and awaits it,
which completes that close (then its done callbacks run). -/
def drainRev : List RegEntry → List Event
  | [] => []
  | ent :: rest => Event.warn :: (completeCloseTask ent.id ent.task ++ drainRev rest)

/-- `create_serial_connection` (lines 145-172) as the event trace of one
call: drain the closing-tasks registry from the back (lines 156-161), then
open the process-wide `_SERIAL_PORT` with `baudRate=baudrate` and
`flowControl="hardware" if rtscts else None` (lines 163-167).  `url` is
ignored (line 163), and `parity`, `stopbits`, `xonxoff` are accepted but
never read. -/
def create_serial_connection (registry : List RegEntry) (url : String)
    (parity : Option Nat) (stopbits : Option Nat) (baudrate : Nat)
    (rtscts : Bool) (xonxoff : Bool) : List Event :=
  drainRev registry.reverse ++
    [Event.openDevice baudrate (if rtscts then some "hardware" else none)]

/-- The process-wide registry bookkeeping (`_SERIAL_PORT_CLOSING_TASKS`)
together with the set of `close_port` tasks actually in flight.  Only three
code sites touch the registry, each a synchronous block of the cooperative
scheduler: `detachClose`, `factoryPop`, `completeClose` below. -/
structure RegSys where
  registry : List RegEntry
  inflight : List Nat
  deriving DecidableEq, Repr

/-- `_cleanup` lines 119-120: the close task is created (now in flight) and
appended to the registry. -/
def detachClose (s : RegSys) (id : Nat) (task : ClosingTask) : RegSys :=
  { registry := s.registry ++ [{ id := id, task := task }],
    inflight := s.inflight ++ [id] }

/-- Line 161, `_SERIAL_PORT_CLOSING_TASKS.pop()`: the factory synchronously
removes the last registry entry and only then awaits it — the popped close
task itself is still in flight. -/
def factoryPop (s : RegSys) : RegSys :=
  { registry := s.registry.dropLast, inflight := s.inflight }

/-- A `close_port` task completes: it leaves the in-flight set, and its done
callback (lines 130-132) removes it from the registry when still present —
`list.remove` compares by identity, embedded as the `id` tag (when the
factory already popped it, `list.remove` raises `ValueError`, which the
event loop swallows, leaving the registry unchanged). -/
def completeClose (s : RegSys) (id : Nat) : RegSys :=
  { registry := s.registry.eraseP (fun ent => ent.id == id),
    inflight := s.inflight.erase id }

/-- The C3 invariant as the spec states it: registry membership exactly
mirrors the in-flight close tasks at every scheduler step. -/
def mirrors (s : RegSys) : Prop :=
  s.registry.map RegEntry.id = s.inflight

/-- Is the event the factory's diagnostic warning (lines 157-160)? -/
def isWarn : Event → Bool
  | .warn => true
  | _ => false

/-- The reachable configuration refuting C3 and C4: a transport's shutdown
detaches close task 0 (lines 119-120), then a factory call executes
`_SERIAL_PORT_CLOSING_TASKS.pop()` (line 161) and suspends awaiting the
popped task — task 0 is still in flight but the registry is empty. -/
def registryCexState : RegSys :=
  factoryPop (detachClose { registry := [], inflight := [] } 0
    { notifyExc := some none, removeAttached := true })

lemma cleanup_fst (t : TransportState) (exc : Option Err) :
    (cleanup t exc).1 = deadState t.writeQueue := rfl

lemma cleanup_of_connected (t : TransportState) (exc : Option Err)
    (h : connected t) :
    cleanup t exc =
      (deadState t.writeQueue,
       [Event.cancelReaderTask, Event.cancelWriterTask,
        Event.releaseReaderLock, Event.releaseWriterLock,
        Event.createCloseTask],
       some { notifyExc := some exc, removeAttached := true }) := by
  obtain ⟨hp, hport, hr, hw⟩ := h
  simp [cleanup, deadState, hp, hport, hr, hw, TransportState.ext_iff]

lemma cleanup_dead (qs : List Chunk) (exc : Option Err) :
    cleanup (deadState qs) exc =
      (deadState qs, [Event.cancelReaderTask, Event.cancelWriterTask], none) := rfl

lemma runCleanups_dead (qs : List Chunk) (excs : List (Option Err)) :
    (runCleanups (deadState qs) excs).1 = deadState qs ∧
    (runCleanups (deadState qs) excs).2.1.countP isConnectionLost = 0 ∧
    (runCleanups (deadState qs) excs).2.2 = [] := by
  induction excs with
  | nil => simp [runCleanups]
  | cons exc rest ih =>
    simp [runCleanups, cleanup_dead, ih.1, ih.2.1, ih.2.2,
      List.countP_append, isConnectionLost]

/-- C1: for a connected transport, any sequence of N ≥ 1 shutdown-transition
invocations — `close()` calls (`exc = none`) arbitrarily interleaved with
internally triggered shutdowns (write failure, end-of-stream, destruction,
each `exc = some _`) — produces exactly one `connection_lost` notification
and exactly one device-close invocation, and every invocation after the
first is an observable no-op: it leaves the state unchanged, detaches no
close task, and emits no notification and no device close. -/
theorem close_idempotent (t : TransportState) (h : connected t)
    (excs : List (Option Err)) (hne : excs ≠ []) :
    lostNotifications (runCleanups t excs).2.1 (runCleanups t excs).2.2 = 1 ∧
    (runCleanups t excs).2.2.length = 1 ∧
    ∀ exc exc2 : Option Err,
      (cleanup (cleanup t exc).1 exc2).1 = (cleanup t exc).1 ∧
      (cleanup (cleanup t exc).1 exc2).2.2 = none ∧
      ∀ e, e ∈ (cleanup (cleanup t exc).1 exc2).2.1 →
        isConnectionLost e = false ∧ e ≠ Event.createCloseTask := by
  obtain ⟨exc, rest, rfl⟩ : ∃ a l, excs = a :: l := by
    cases excs with
    | nil => exact absurd rfl hne
    | cons a l => exact ⟨a, l, rfl⟩
  have hd := runCleanups_dead t.writeQueue rest
  refine ⟨?_, ?_, ?_⟩
  · simp [runCleanups, cleanup_of_connected t exc h, lostNotifications,
      List.countP_append, hd.2.1, hd.2.2, isConnectionLost]
  · simp [runCleanups, cleanup_of_connected t exc h, hd.2.2]
  · intro exc1 exc2
    refine ⟨by simp [cleanup_fst, cleanup_dead], by simp [cleanup_fst, cleanup_dead], ?_⟩
    intro e he
    simp [cleanup_fst, cleanup_dead] at he
    rcases he with rfl | rfl <;> simp [isConnectionLost]

/-- Witness for C1 at a concrete input: a fresh transport, `close()` followed
by a destruction-triggered shutdown. -/
theorem close_idempotent_witness :
    connected initTransport ∧
    ([none, some Err.notClosed] : List (Option Err)) ≠ [] ∧
    lostNotifications (runCleanups initTransport [none, some Err.notClosed]).2.1
      (runCleanups initTransport [none, some Err.notClosed]).2.2 = 1 :=
  ⟨⟨rfl, rfl, rfl, rfl⟩, by decide,
   (close_idempotent initTransport ⟨rfl, rfl, rfl, rfl⟩
      [none, some Err.notClosed] (by decide)).1⟩

/-- C2: when shutdown is triggered while the device handle is still present,
no synchronous `connection_lost` fires; the notification is attached to the
detached close task carrying the error, and that task's observable
completion trace has the device close completing strictly before
`connection_lost` fires.  When no device handle is present at shutdown (and
the consumer is still set), `connection_lost` fires synchronously inside the
transition and no close task is created. -/
theorem close_before_notify (t : TransportState) (exc : Option Err)
    (hp : t.protocol = true) :
    if t.port = true then
      (cleanup t exc).2.1.countP isConnectionLost = 0 ∧
      (cleanup t exc).2.2 = some { notifyExc := some exc, removeAttached := true } ∧
      completeCloseTask 0 { notifyExc := some exc, removeAttached := true } =
        [Event.closeCompleted 0, Event.connectionLost exc]
    else
      Event.connectionLost exc ∈ (cleanup t exc).2.1 ∧
      (cleanup t exc).2.2 = none := by
  cases hport : t.port <;>
    cases hr : t.js_reader <;> cases hw : t.js_writer <;>
      simp [cleanup, completeCloseTask, hp, hport, hr, hw, isConnectionLost]

/-- Witness for C2 at a concrete input: a fresh transport closed with a
device error. -/
theorem close_before_notify_witness :
    initTransport.protocol = true ∧
    (if initTransport.port = true then
      (cleanup initTransport (some (Err.deviceError 7))).2.1.countP isConnectionLost = 0 ∧
      (cleanup initTransport (some (Err.deviceError 7))).2.2 =
        some { notifyExc := some (some (Err.deviceError 7)), removeAttached := true } ∧
      completeCloseTask 0 { notifyExc := some (some (Err.deviceError 7)), removeAttached := true } =
        [Event.closeCompleted 0, Event.connectionLost (some (Err.deviceError 7))]
    else
      Event.connectionLost (some (Err.deviceError 7)) ∈
        (cleanup initTransport (some (Err.deviceError 7))).2.1 ∧
      (cleanup initTransport (some (Err.deviceError 7))).2.2 = none) :=
  ⟨rfl, close_before_notify initTransport (some (Err.deviceError 7)) rfl⟩

/-- C8: after any shutdown transition both stream locks are released (never
half-released), each release is performed independently exactly when that
lock was still held (regardless of the other lock's or any other field's
state), and re-entering the shutdown transition releases nothing again — a
safe no-op. -/
theorem handles_release_atomic (t : TransportState) (exc exc2 : Option Err) :
    (cleanup t exc).1.js_reader = false ∧
    (cleanup t exc).1.js_writer = false ∧
    (Event.releaseReaderLock ∈ (cleanup t exc).2.1 ↔ t.js_reader = true) ∧
    (Event.releaseWriterLock ∈ (cleanup t exc).2.1 ↔ t.js_writer = true) ∧
    Event.releaseReaderLock ∉ (cleanup (cleanup t exc).1 exc2).2.1 ∧
    Event.releaseWriterLock ∉ (cleanup (cleanup t exc).1 exc2).2.1 := by
  refine ⟨rfl, rfl, ?_, ?_, ?_, ?_⟩ <;>
    cases hr : t.js_reader <;> cases hw : t.js_writer <;>
      cases hp : t.port <;> cases hpr : t.protocol <;>
        simp [cleanup, cleanup_fst, cleanup_dead, hr, hw, hp, hpr]

lemma writeAll_queue (t : TransportState) (cs : List Chunk) :
    (writeAll t cs).writeQueue = t.writeQueue ++ cs := by
  induction cs generalizing t with
  | nil => simp [writeAll]
  | cons c rest ih => simp [writeAll, write, ih]

lemma writerLoop_no_fail (t : TransportState) (fails : Nat → Option Err)
    (q : List Chunk) :
    ∀ i0 : Nat, (∀ j, j < q.length → fails (i0 + j) = none) →
      writerLoop t fails q i0 = (writeTrace q, t, none) := by
  induction q with
  | nil => intro i0 _; simp [writerLoop, writeTrace]
  | cons c rest ih =>
    intro i0 h
    have h0 : fails i0 = none := by simpa using h 0 (by simp)
    have hrest : ∀ j, j < rest.length → fails (i0 + 1 + j) = none := by
      intro j hj
      have hjj : i0 + 1 + j = i0 + (j + 1) := by omega
      rw [hjj]
      exact h (j + 1) (by simpa using Nat.succ_lt_succ hj)
    simp [writerLoop, writeTrace, h0, ih (i0 + 1) hrest]

lemma writerLoop_fail_at (t : TransportState) (fails : Nat → Option Err)
    (e : Err) (q : List Chunk) :
    ∀ (i0 i : Nat) (hi : i < q.length),
      (∀ j, j < i → fails (i0 + j) = none) → fails (i0 + i) = some e →
      writerLoop t fails q i0 =
        (writeTrace (q.take i) ++
           Event.beginWrite (q.get ⟨i, hi⟩) :: (cleanup t (some e)).2.1,
         (cleanup t (some e)).1, (cleanup t (some e)).2.2) := by
  induction q with
  | nil => intro i0 i hi; simp at hi
  | cons c rest ih =>
    intro i0 i hi hok hfail
    cases i with
    | zero =>
      have h0 : fails i0 = some e := by simpa using hfail
      simp [writerLoop, h0, writeTrace]
    | succ i =>
      have h0 : fails i0 = none := by simpa using hok 0 (Nat.succ_pos i)
      have hi2 : i < rest.length := by simpa using hi
      have hok2 : ∀ j, j < i → fails (i0 + 1 + j) = none := by
        intro j hj
        have hjj : i0 + 1 + j = i0 + (j + 1) := by omega
        rw [hjj]
        exact hok (j + 1) (by omega)
      have hfail2 : fails (i0 + 1 + i) = some e := by
        have hjj : i0 + 1 + i = i0 + (i + 1) := by omega
        rw [hjj]
        exact hfail
      simp [writerLoop, h0, ih (i0 + 1) i hi2 hok2 hfail2, writeTrace]

/-- C5: when the device write of the chunk at queue position `i` fails with
`e` (all earlier writes succeeding), the pump's device trace is exactly the
earlier chunks written in order, then the failing write beginning and the
shutdown transition's events — the failing chunk is never retried or
requeued and no chunk queued behind it is ever written; the transport enters
shutdown, and the detached close task carries exactly the error `e` to
`connection_lost`. -/
theorem write_failure_shutdown (t : TransportState) (fails : Nat → Option Err)
    (q : List Chunk) (i : Nat) (e : Err) (hconn : connected t)
    (hi : i < q.length)
    (hok : ∀ j, j < i → fails j = none) (hfail : fails i = some e) :
    (writerLoop t fails q 0).1 =
      writeTrace (q.take i) ++
        Event.beginWrite (q.get ⟨i, hi⟩) :: (cleanup t (some e)).2.1 ∧
    (writerLoop t fails q 0).2.1.is_closing = true ∧
    (writerLoop t fails q 0).2.2 =
      some { notifyExc := some (some e), removeAttached := true } := by
  have hrun := writerLoop_fail_at t fails e q 0 i hi
    (fun j hj => by simpa using hok j hj) (by simpa using hfail)
  rw [cleanup_of_connected t (some e) hconn] at hrun
  rw [hrun]
  refine ⟨by rw [cleanup_of_connected t (some e) hconn], rfl, rfl⟩

/-- Witness for C5 at a concrete input: queue [A, B, C], the write of B
(position 1) fails. -/
theorem write_failure_shutdown_witness :
    connected initTransport ∧
    (writerLoop initTransport
        (fun i => if i = 1 then some (Err.deviceError 3) else none)
        [[10], [20], [30]] 0).1 =
      writeTrace [[10]] ++
        Event.beginWrite [20] ::
          (cleanup initTransport (some (Err.deviceError 3))).2.1 ∧
    (writerLoop initTransport
        (fun i => if i = 1 then some (Err.deviceError 3) else none)
        [[10], [20], [30]] 0).2.2 =
      some { notifyExc := some (some (Err.deviceError 3)), removeAttached := true } := by
  have h := write_failure_shutdown initTransport
    (fun i => if i = 1 then some (Err.deviceError 3) else none)
    [[10], [20], [30]] 1 (Err.deviceError 3) ⟨rfl, rfl, rfl, rfl⟩
    (by decide) (by intro j hj; interval_cases j <;> rfl) rfl
  exact ⟨⟨rfl, rfl, rfl, rfl⟩, h.1, h.2.2⟩

/-- C6: chunks submitted back to back through `write()` are enqueued in call
order, and while the device accepts them the outbound pump's device trace is
exactly `begin A, end A, begin B, end B, ...` — each chunk's device write
completes before the next one begins, in submission order. -/
theorem write_fifo (t : TransportState) (fails : Nat → Option Err)
    (chunks : List Chunk) (hq : t.writeQueue = [])
    (h : ∀ j, j < chunks.length → fails j = none) :
    (writeAll t chunks).writeQueue = chunks ∧
    (writerLoop t fails (writeAll t chunks).writeQueue 0).1 = writeTrace chunks := by
  have hqa : (writeAll t chunks).writeQueue = chunks := by
    rw [writeAll_queue, hq, List.nil_append]
  refine ⟨hqa, ?_⟩
  rw [hqa, writerLoop_no_fail t fails chunks 0 (fun j hj => by simpa using h j hj)]

/-- Witness for C6 at a concrete input: three chunks, no device failures. -/
theorem write_fifo_witness :
    initTransport.writeQueue = [] ∧
    (writeAll initTransport [[1], [2], [3]]).writeQueue = [[1], [2], [3]] ∧
    (writerLoop initTransport (fun _ => none)
        (writeAll initTransport [[1], [2], [3]]).writeQueue 0).1 =
      writeTrace [[1], [2], [3]] := by
  have h := write_fifo initTransport (fun _ => none) [[1], [2], [3]] rfl
    (fun j hj => rfl)
  exact ⟨rfl, h.1, h.2⟩

/-- C7: when the device read at position `k` reports done (end-of-stream),
the inbound pump delivers the `k` earlier chunks to `data_received` in
arrival order, triggers shutdown carrying the distinguished peer-closed
error (the close task will deliver exactly that error to `connection_lost`),
and attempts exactly `k + 1` reads — none after the done result. -/
theorem eof_shutdown (t : TransportState) (vals : List Chunk)
    (rest : List ReadResult) (hconn : connected t) :
    readerLoop t (vals.map ReadResult.chunk ++ ReadResult.done :: rest) =
      (vals.map Event.dataReceived ++ (cleanup t (some Err.peerClosed)).2.1,
       (cleanup t (some Err.peerClosed)).1,
       (cleanup t (some Err.peerClosed)).2.2,
       vals.length + 1) ∧
    (cleanup t (some Err.peerClosed)).2.2 =
      some { notifyExc := some (some Err.peerClosed), removeAttached := true } ∧
    (cleanup t (some Err.peerClosed)).1.is_closing = true := by
  refine ⟨?_, ?_, rfl⟩
  · induction vals with
    | nil => simp [readerLoop]
    | cons v vs ih => simp [readerLoop, ih]
  · rw [cleanup_of_connected t (some Err.peerClosed) hconn]

/-- Witness for C7 at a concrete input: two chunks arrive, then done. -/
theorem eof_shutdown_witness :
    connected initTransport ∧
    readerLoop initTransport
        ([[5], [6]].map ReadResult.chunk ++ ReadResult.done :: [ReadResult.chunk [7]]) =
      ([[5], [6]].map Event.dataReceived ++
         (cleanup initTransport (some Err.peerClosed)).2.1,
       (cleanup initTransport (some Err.peerClosed)).1,
       (cleanup initTransport (some Err.peerClosed)).2.2,
       2 + 1) :=
  ⟨⟨rfl, rfl, rfl, rfl⟩,
   (eof_shutdown initTransport [[5], [6]] [ReadResult.chunk [7]]
      ⟨rfl, rfl, rfl, rfl⟩).1⟩

/-- C9: `write` is a total synchronous enqueue in every transport state — it
appends the chunk to the outbound queue and nothing else, so it never raises
and never blocks; after a shutdown transition the transport is closing, a
subsequently submitted chunk is still silently enqueued, and the outbound
pump — cancelled by the transition — performs no device write at all. -/
theorem write_after_close_safe (t : TransportState) (exc : Option Err)
    (data : Chunk) (fails : Nat → Option Err) :
    write t data = { t with writeQueue := t.writeQueue ++ [data] } ∧
    (write (cleanup t exc).1 data).is_closing = true ∧
    (write (cleanup t exc).1 data).writeQueue =
      (cleanup t exc).1.writeQueue ++ [data] ∧
    pumpWrites (write (cleanup t exc).1 data) fails = [] := by
  exact ⟨rfl, rfl, rfl, rfl⟩

/-- C10: the factory's behaviour does not depend on `url`, `parity`,
`stopbits` or `xonxoff`: two calls differing only in those arguments produce
identical event traces, and the device open in that trace is always on the
process-wide active device with `baudRate = baudrate` and
`flowControl = "hardware"` exactly when `rtscts` is true, device default
otherwise. -/
theorem factory_ignores_legacy_args (reg : List RegEntry)
    (urlA urlB : String) (parA parB stopA stopB : Option Nat)
    (baud : Nat) (rts : Bool) (xonA xonB : Bool) :
    create_serial_connection reg urlA parA stopA baud rts xonA =
      create_serial_connection reg urlB parB stopB baud rts xonB ∧
    Event.openDevice baud (if rts then some "hardware" else none) ∈
      create_serial_connection reg urlA parA stopA baud rts xonA := by
  refine ⟨rfl, ?_⟩
  simp [create_serial_connection]

lemma map_eraseP_id (l : List RegEntry) (id : Nat) :
    (l.eraseP (fun ent => ent.id == id)).map RegEntry.id =
      (l.map RegEntry.id).erase id := by
  induction l with
  | nil => simp
  | cons a rest ih =>
    by_cases h : a.id = id
    · simp [List.eraseP_cons, List.erase_cons, h]
    · simp [List.eraseP_cons, List.erase_cons, h, ih]

lemma completeCloseTask_events (id : Nat) (ct : ClosingTask) :
    Event.warn ∉ completeCloseTask id ct ∧
    Event.closeCompleted id ∈ completeCloseTask id ct := by
  cases h : ct.notifyExc <;> simp [completeCloseTask, h]

lemma drainRev_closeCompleted (l : List RegEntry) (ent : RegEntry)
    (h : ent ∈ l) : Event.closeCompleted ent.id ∈ drainRev l := by
  induction l with
  | nil => simp at h
  | cons a rest ih =>
    rcases List.mem_cons.mp h with rfl | hmem
    · exact List.mem_cons_of_mem _ (List.mem_append_left _
        (completeCloseTask_events ent.id ent.task).2)
    · exact List.mem_cons_of_mem _ (List.mem_append_right _ (ih hmem))

lemma drainRev_warn_count (l : List RegEntry) :
    (drainRev l).countP isWarn = l.length := by
  induction l with
  | nil => simp [drainRev]
  | cons a rest ih =>
    have hz : (completeCloseTask a.id a.task).countP isWarn = 0 := by
      cases h : a.task.notifyExc <;> simp [completeCloseTask, h, isWarn]
    simp [drainRev, List.countP_append, List.countP_cons, hz, ih, isWarn]

/-- Counterexample to C3 as stated: after a shutdown detaches close task 0
and a factory call pops it (line 161) but before that close completes, the
close is still in flight while the registry is empty — the registry does not
mirror the in-flight closes at that scheduler step, and the entry was
removed before the close operation completed. -/
theorem closing_registry_cex :
    registryCexState.inflight = [0] ∧
    registryCexState.registry = [] ∧
    ¬ mirrors registryCexState := by
  refine ⟨rfl, rfl, ?_⟩
  simp [mirrors, registryCexState, factoryPop, detachClose]

/-- C3 amended: the registry exactly mirrors the in-flight closes across the
two shutdown-side registry mutations — detaching a close appends its entry,
and a close completing removes it — but not across the factory's pop, which
removes the entry while the close is still in flight. -/
theorem closing_registry_mirrors (s : RegSys) (id : Nat) (task : ClosingTask)
    (h : mirrors s) :
    mirrors (detachClose s id task) ∧ mirrors (completeClose s id) := by
  unfold mirrors at h ⊢
  refine ⟨?_, ?_⟩
  · simp [detachClose, h]
  · simp [completeClose, map_eraseP_id, h]

/-- Witness for the amended C3 at a concrete input. -/
theorem closing_registry_mirrors_witness :
    mirrors { registry := [], inflight := [] } ∧
    mirrors (detachClose { registry := [], inflight := [] } 1
      { notifyExc := some none, removeAttached := true }) ∧
    mirrors (completeClose { registry := [], inflight := [] } 1) :=
  ⟨rfl,
   (closing_registry_mirrors { registry := [], inflight := [] } 1
      { notifyExc := some none, removeAttached := true } rfl).1,
   (closing_registry_mirrors { registry := [], inflight := [] } 1
      { notifyExc := some none, removeAttached := true } rfl).2⟩

/-- Counterexample to C4 as stated: in the reachable configuration where
close task 0 was popped by one factory call but is still in flight, a second
`create_serial_connection` call finds the registry empty, emits no warning,
and invokes the device open immediately — before the outstanding close has
completed. -/
theorem serialized_open_cex :
    registryCexState.inflight = [0] ∧
    create_serial_connection registryCexState.registry "socket://1" none none
        115200 false false = [Event.openDevice 115200 none] ∧
    Event.warn ∉ create_serial_connection registryCexState.registry
        "socket://1" none none 115200 false false ∧
    Event.closeCompleted 0 ∉ create_serial_connection registryCexState.registry
        "socket://1" none none 115200 false false := by
  refine ⟨rfl, rfl, ?_, ?_⟩ <;> decide

/-- C4 amended: a `create_serial_connection` call drains the registry before
opening — its trace is the drain of the registry it sees (popping from the
back) followed by the single device open, every close recorded in that
registry completes inside the drain and hence before `open()` is invoked,
and the drain emits one diagnostic warning per drained entry.  This
serializes opens provided the registry still contains every in-flight close
when the call starts; a call that starts while another factory call is
awaiting an already-popped close sees an empty registry and opens
immediately, without warning (see the counterexample). -/
theorem serialized_open (reg : List RegEntry) (url : String)
    (parity stopbits : Option Nat) (baud : Nat) (rts xon : Bool) :
    create_serial_connection reg url parity stopbits baud rts xon =
      drainRev reg.reverse ++
        [Event.openDevice baud (if rts then some "hardware" else none)] ∧
    (∀ ent, ent ∈ reg → Event.closeCompleted ent.id ∈ drainRev reg.reverse) ∧
    (drainRev reg.reverse).countP isWarn = reg.length := by
  refine ⟨rfl, ?_, ?_⟩
  · intro ent h
    exact drainRev_closeCompleted _ ent (by simpa using h)
  · rw [drainRev_warn_count, List.length_reverse]

end WebSerial
